import Mathlib

/-!
Shallow embedding of `runtime-rs/crates/resource/src/manager_inner.rs`
(ResourceManagerInner of the kata-containers sandbox resource manager).

External collaborators (hypervisor, guest agent, share-fs backend, cgroups
resource, sandbox bind mounts, network backend, device registry) are modelled
as data/oracles carried in an `Env` record; each fallible call returns an
anyhow-style `Result` whose errors accumulate context strings.  Operations
additionally produce an event trace recording which external calls were made,
so ordering and short-circuiting properties can be stated.
-/

namespace KataResource

/-- An anyhow-style error: a base message plus the stack of `.context(...)`
strings wrapped around it (most recent first). -/
structure Error where
  contexts : List String
  base : String
deriving DecidableEq, Repr

/-- `e.context(c)` of the anyhow crate: push one more context string. -/
def Error.withContext (c : String) (e : Error) : Error :=
  { e with contexts := c :: e.contexts }

/-- `anyhow::Result` -/
abbrev Result (α : Type) := Except Error α

deriving instance DecidableEq for Except

/-- `.context(c)?` applied to a whole result. -/
def withCtx {α : Type} (c : String) : Result α → Result α
  | .error e => .error (e.withContext c)
  | .ok a => .ok a

/-- Whether a result is `Ok`. -/
def resultIsOk {α : Type} : Result α → Bool
  | .ok _ => true
  | .error _ => false

/- Opaque tokens for data the orchestrator never inspects. -/

/-- An interface record pushed to the guest agent (opaque here). -/
structure Interface where
  id : Nat
deriving DecidableEq, Repr

/-- A route record pushed to the guest agent (opaque here). -/
structure Route where
  id : Nat
deriving DecidableEq, Repr

/-- An ARP-neighbor record pushed to the guest agent (opaque here). -/
structure ARPNeighbor where
  id : Nat
deriving DecidableEq, Repr

/-- Per-backend endpoint snapshot used for persistence (opaque here). -/
structure EndpointState where
  id : Nat
deriving DecidableEq, Repr

/-- A storage entry supplied by the share-fs backend (opaque here). -/
structure Storage where
  id : Nat
deriving DecidableEq, Repr

/-- A share-filesystem configuration entry (opaque here). -/
structure ShareFsConfig where
  id : Nat
deriving DecidableEq, Repr

/-- A network configuration entry (opaque here). -/
structure NetworkConfig where
  id : Nat
deriving DecidableEq, Repr

/-- Serialized cgroup state (opaque here). -/
structure CgroupState where
  id : Nat
deriving DecidableEq, Repr

/-- `CgroupState::default()` -/
def CgroupState.default : CgroupState := ⟨0⟩

/-- The device manager handle (opaque here; the orchestrator only stores and
passes it). -/
structure DeviceManager where
  id : Nat
deriving DecidableEq, Repr

/-- The network backend (`Arc<dyn Network>`): modelled by the answers its
methods give when the orchestrator calls them. -/
structure Network where
  interfaces : Result (List Interface)
  neighs : Result (List ARPNeighbor)
  routes : Result (List Route)
  saveEndpoints : Option (List EndpointState)
deriving DecidableEq, Repr

/-- The share-fs backend (`Arc<dyn ShareFs>`): modelled by the answers its
methods give. `mountCleanup` stands for `get_share_fs_mount().cleanup(sid)`. -/
structure ShareFs where
  setup_device_before_start_vm : Result Unit
  setup_device_after_start_vm : Result Unit
  get_storages : Result (List Storage)
  mountCleanup : Result Unit
deriving DecidableEq, Repr

/-- Hypervisor capabilities; only the fs-sharing flag is consulted here. -/
structure Capabilities where
  fs_sharing : Bool
deriving DecidableEq, Repr

/-- `Capabilities::is_fs_sharing_supported` -/
def Capabilities.is_fs_sharing_supported (c : Capabilities) : Bool :=
  c.fs_sharing

/-- The hypervisor handle: modelled by the answer of its capability query. -/
structure Hypervisor where
  capabilities : Result Capabilities
deriving DecidableEq, Repr

/-- The guest agent handle: modelled by the answers of the three RPCs this
orchestrator issues. -/
structure Agent where
  update_interface : Interface → Result Unit
  add_arp_neighbors : List ARPNeighbor → Result Unit
  update_routes : List Route → Result Unit

/-- The `runtime` section of the TOML configuration; only the sandbox
bind-mount list is consulted here. -/
structure RuntimeConfig where
  sandbox_bind_mounts : List String
deriving DecidableEq, Repr

/-- The TOML-derived configuration snapshot. -/
structure TomlConfig where
  runtime : RuntimeConfig
deriving DecidableEq, Repr

/-- `TomlConfig::default()` -/
def TomlConfig.default : TomlConfig := ⟨⟨[]⟩⟩

/-- `hypervisor::BlockConfig` as filled by `handler_devices`: major/minor from
the OCI device, everything else `Default::default()`. -/
structure BlockConfig where
  major : Int
  minor : Int
deriving DecidableEq, Repr

/-- `hypervisor::device::DeviceConfig`; only the `BlockCfg` variant is built
by this file. -/
inductive DeviceConfig where
  | BlockCfg (c : BlockConfig)
deriving DecidableEq, Repr

/-- The realized block device returned by the registry: its id plus the
`driver_option` and `virt_path` of its config. -/
structure BlockDevice where
  device_id : String
  driver_option : String
  virt_path : String
deriving DecidableEq, Repr

/-- `hypervisor::device::DeviceType`: the registry result. `Other` stands for
every non-block variant. -/
inductive DeviceType where
  | Block (device : BlockDevice)
  | Other
deriving DecidableEq, Repr

/-- An OCI `LinuxDevice` (the fields `handler_devices` reads). `r_type`
models the `type` field (`d.r#type`). -/
structure OciLinuxDevice where
  r_type : String
  major : Int
  minor : Int
  path : String
deriving DecidableEq, Repr

/-- `oci::Linux` (the field `handler_devices` reads). -/
structure Linux where
  devices : List OciLinuxDevice
deriving DecidableEq, Repr

/-- `agent::types::Device` (the fields `handler_devices` populates). -/
structure AgentDevice where
  id : String
  container_path : String
  field_type : String
  vm_path : String
deriving DecidableEq, Repr

/-- A constructed `SandboxBindMounts` value: modelled by the answers of its
setup and cleanup operations. -/
structure SandboxBindMounts where
  setupResult : Result Unit
  cleanupResult : Result Unit
deriving DecidableEq, Repr

/-- Modelled from the spec: the Cgroup Resource delegate (§4.4) — the code of
`CgroupsResource` is outside this crate slice.  Per the spec it carries the
per-sandbox cgroup state, `save` produces that serializable state and
`restore` reconstructs the resource from persisted state plus constructor
arguments. -/
structure CgroupsResource where
  state : CgroupState
deriving DecidableEq, Repr

/-- Modelled from the spec: `CgroupsResource::save` produces the serializable
cgroup state. -/
def CgroupsResource.save (c : CgroupsResource) : CgroupState :=
  c.state

/-- `cgroups::CgroupArgs` -/
structure CgroupArgs where
  sid : String
  config : TomlConfig

/-- Modelled from the spec: `CgroupsResource::restore` reconstructs the cgroup
resource from the persisted state plus the constructor arguments. -/
def CgroupsResource.restore (_args : CgroupArgs) (st : CgroupState) : CgroupsResource :=
  ⟨st⟩

/-- `resource_persist::ResourceState`: the persisted record. -/
structure ResourceState where
  endpoint : List EndpointState
  cgroup_state : Option CgroupState
deriving DecidableEq, Repr

/-- `manager::ManagerArgs`: the constructor arguments of restore. -/
structure ManagerArgs where
  sid : String
  agent : Agent
  hypervisor : Hypervisor
  config : TomlConfig

/-- Outcome of `thread::spawn(...).join()` for the network worker thread:
either the thread panicked (payload formatted by `anyhow!`), or it finished
with the closure result (network construction and setup). -/
inductive JoinResult where
  | panicked (payload : String)
  | finished (r : Result Network)

/-- The environment of external constructors and oracles the orchestrator
calls into. -/
structure Env where
  /-- `share_fs::new(sid, config)` -/
  shareFsNew : String → ShareFsConfig → Result ShareFs
  /-- `SandboxBindMounts::new(sid, bindmounts)` -/
  sandboxBindMountsNew : String → List String → Result SandboxBindMounts
  /-- the whole body of the spawned network worker thread for a given
  config, as observed at `join()` -/
  networkThread : NetworkConfig → JoinResult
  /-- `do_handle_device(&device_manager, &dev_info)` -/
  do_handle_device : DeviceConfig → Result DeviceType
  /-- `DeviceManager::new(hypervisor)` -/
  deviceManagerNew : Result DeviceManager
  /-- `CgroupsResource::new(sid, &toml_config)` -/
  cgroupsResourceNew : String → TomlConfig → Result CgroupsResource
  /-- `self.cgroups_resource.delete()` -/
  cgroupDelete : CgroupsResource → Result Unit

/-- `ResourceConfig`: the tagged resource configuration entries consumed by
`prepare_before_start_vm`. -/
inductive ResourceConfig where
  | ShareFs (c : ShareFsConfig)
  | Network (c : NetworkConfig)
deriving DecidableEq, Repr

/-- Trace events: one per external call the orchestrator makes, plus one
marker per `prepare_before_start_vm` entry processed. -/
inductive Event where
  | entryShareFs (c : ShareFsConfig)
  | entryNetwork (c : NetworkConfig)
  | shareFsNewCall (c : ShareFsConfig)
  | setupDeviceBeforeStartVm
  | bindmountOp (setup : Bool)
  | setupDeviceAfterStartVm
  | agentUpdateInterface (i : Interface)
  | agentAddArpNeighbors (ns : List ARPNeighbor)
  | agentUpdateRoutes (rs : List Route)
  | registryHandleDevice (cfg : DeviceConfig)
  | deleteCgroup
  | shareFsMountCleanup
deriving DecidableEq, Repr

/-- Entry markers of the `prepare_before_start_vm` loop. -/
def Event.isEntry : Event → Bool
  | .entryShareFs _ => true
  | .entryNetwork _ => true
  | _ => false

/-- Guest-agent RPC events. -/
def Event.isAgentCall : Event → Bool
  | .agentUpdateInterface _ => true
  | .agentAddArpNeighbors _ => true
  | .agentUpdateRoutes _ => true
  | _ => false

/-- The entry marker of a configuration entry. -/
def ResourceConfig.entryEvent : ResourceConfig → Event
  | .ShareFs c => .entryShareFs c
  | .Network c => .entryNetwork c

/-- `ResourceManagerInner`: the orchestrator state. -/
structure ResourceManagerInner where
  sid : String
  toml_config : TomlConfig
  agent : Agent
  hypervisor : Hypervisor
  device_manager : DeviceManager
  network : Option Network
  share_fs : Option ShareFs
  cgroups_resource : CgroupsResource

/-- `ResourceManagerInner::new` -/
def ResourceManagerInner.new (env : Env) (sid : String) (agent : Agent)
    (hypervisor : Hypervisor) (toml_config : TomlConfig) :
    Result ResourceManagerInner :=
  match env.cgroupsResourceNew sid toml_config with
  | .error e => .error e
  | .ok cgroups_resource =>
    match withCtx "failed to create device manager" env.deviceManagerNew with
    | .error e => .error e
    | .ok dm =>
      .ok { sid := sid, toml_config := toml_config, agent := agent,
            hypervisor := hypervisor, device_manager := dm,
            network := none, share_fs := none,
            cgroups_resource := cgroups_resource }

/-- `ResourceManagerInner::handle_sandbox_bindmounts`: skip when the
configured list is empty, otherwise construct `SandboxBindMounts` and run
setup or cleanup. -/
def handle_sandbox_bindmounts (env : Env) (m : ResourceManagerInner)
    (setup : Bool) : List Event × Result Unit :=
  let bindmounts := m.toml_config.runtime.sandbox_bind_mounts
  if bindmounts.isEmpty then
    ([], .ok ())
  else
    match env.sandboxBindMountsNew m.sid bindmounts with
    | .error e => ([], .error e)
    | .ok sb =>
      if setup then
        ([.bindmountOp true], sb.setupResult)
      else
        ([.bindmountOp false], sb.cleanupResult)

/-- `ResourceManagerInner::handle_network`: spawn the worker thread, join it,
turn a panic into a thread-join error, wrap a functional failure of the
closure, and on success store the constructed backend. -/
def handle_network (env : Env) (m : ResourceManagerInner) (c : NetworkConfig) :
    Result ResourceManagerInner :=
  match env.networkThread c with
  | .panicked payload =>
    .error { contexts := ["Couldn\x27t join on the associated thread"],
             base := payload }
  | .finished (.error e) =>
    .error (e.withContext "failed to set up network")
  | .finished (.ok network) =>
    .ok { m with network := some network }

/-- One iteration of the `prepare_before_start_vm` loop: dispatch one
configuration entry. -/
def processResourceConfig (env : Env) (m : ResourceManagerInner) :
    ResourceConfig → List Event × Result ResourceManagerInner
  | .ShareFs c =>
    match m.hypervisor.capabilities with
    | .error e => ([], .error e)
    | .ok caps =>
      if caps.is_fs_sharing_supported then
        match withCtx "new share fs" (env.shareFsNew m.sid c) with
        | .error e => ([.shareFsNewCall c], .error e)
        | .ok sfs =>
          match withCtx "setup share fs device before start vm"
              sfs.setup_device_before_start_vm with
          | .error e => ([.shareFsNewCall c, .setupDeviceBeforeStartVm], .error e)
          | .ok _ =>
            let bm := handle_sandbox_bindmounts env m true
            match bm.2 with
            | .error e =>
              (.shareFsNewCall c :: .setupDeviceBeforeStartVm :: bm.1,
               .error (e.withContext "failed setup sandbox bindmounts"))
            | .ok _ =>
              (.shareFsNewCall c :: .setupDeviceBeforeStartVm :: bm.1,
               .ok { m with share_fs := some sfs })
      else
        ([], .ok { m with share_fs := none })
  | .Network c =>
    match handle_network env m c with
    | .error e => ([], .error (e.withContext "failed to handle network"))
    | .ok m1 => ([], .ok m1)

/-- `ResourceManagerInner::prepare_before_start_vm`: process the entries in
order, aborting at the first failure. -/
def prepare_before_start_vm (env : Env) (m : ResourceManagerInner) :
    List ResourceConfig → List Event × Result ResourceManagerInner
  | [] => ([], .ok m)
  | dc :: rest =>
    let step := processResourceConfig env m dc
    match step.2 with
    | .error e => (dc.entryEvent :: step.1, .error e)
    | .ok m1 =>
      let tail := prepare_before_start_vm env m1 rest
      (dc.entryEvent :: (step.1 ++ tail.1), tail.2)

/-- `ResourceManagerInner::handle_interfaces` loop body: one
`update_interface` RPC per interface. -/
def updateInterfacesLoop (agent : Agent) :
    List Interface → List Event × Result Unit
  | [] => ([], .ok ())
  | i :: rest =>
    match withCtx "update interface" (agent.update_interface i) with
    | .error e => ([.agentUpdateInterface i], .error e)
    | .ok _ =>
      let tail := updateInterfacesLoop agent rest
      (.agentUpdateInterface i :: tail.1, tail.2)

/-- `ResourceManagerInner::handle_interfaces` -/
def handle_interfaces (m : ResourceManagerInner) (network : Network) :
    List Event × Result Unit :=
  match network.interfaces with
  | .error e => ([], .error (e.withContext "get interfaces"))
  | .ok is => updateInterfacesLoop m.agent is

/-- `ResourceManagerInner::handle_neighbours`: one `add_arp_neighbors` RPC,
skipped when the list is empty. -/
def handle_neighbours (m : ResourceManagerInner) (network : Network) :
    List Event × Result Unit :=
  match network.neighs with
  | .error e => ([], .error (e.withContext "neighs"))
  | .ok neighbors =>
    if neighbors.isEmpty then
      ([], .ok ())
    else
      ([.agentAddArpNeighbors neighbors],
       withCtx "update neighbors" (m.agent.add_arp_neighbors neighbors))

/-- `ResourceManagerInner::handle_routes`: one `update_routes` RPC, skipped
when the list is empty. -/
def handle_routes (m : ResourceManagerInner) (network : Network) :
    List Event × Result Unit :=
  match network.routes with
  | .error e => ([], .error (e.withContext "routes"))
  | .ok routes =>
    if routes.isEmpty then
      ([], .ok ())
    else
      ([.agentUpdateRoutes routes],
       withCtx "update routes" (m.agent.update_routes routes))

/-- `ResourceManagerInner::setup_after_start_vm` -/
def setup_after_start_vm (m : ResourceManagerInner) :
    List Event × Result Unit :=
  let sfsStep : List Event × Result Unit :=
    match m.share_fs with
    | some sfs =>
      ([.setupDeviceAfterStartVm],
       withCtx "setup share fs device after start vm"
         sfs.setup_device_after_start_vm)
    | none => ([], .ok ())
  match sfsStep.2 with
  | .error e => (sfsStep.1, .error e)
  | .ok _ =>
    match m.network with
    | none => (sfsStep.1, .ok ())
    | some network =>
      let s1 := handle_interfaces m network
      match s1.2 with
      | .error e =>
        (sfsStep.1 ++ s1.1, .error (e.withContext "handle interfaces"))
      | .ok _ =>
        let s2 := handle_neighbours m network
        match s2.2 with
        | .error e =>
          (sfsStep.1 ++ s1.1 ++ s2.1, .error (e.withContext "handle neighbors"))
        | .ok _ =>
          let s3 := handle_routes m network
          match s3.2 with
          | .error e =>
            (sfsStep.1 ++ s1.1 ++ s2.1 ++ s3.1,
             .error (e.withContext "handle routes"))
          | .ok _ =>
            (sfsStep.1 ++ s1.1 ++ s2.1 ++ s3.1, .ok ())

/-- `ResourceManagerInner::get_storage_for_sandbox` -/
def get_storage_for_sandbox (m : ResourceManagerInner) :
    Result (List Storage) :=
  match m.share_fs with
  | some d => withCtx "get storage" d.get_storages
  | none => .ok []

/-- The loop of `ResourceManagerInner::handler_devices` over the OCI device
list. -/
def handlerDevicesGo (env : Env) :
    List OciLinuxDevice → List Event × Result (List AgentDevice)
  | [] => ([], .ok [])
  | d :: rest =>
    if d.r_type = "b" then
      let cfg : DeviceConfig := .BlockCfg { major := d.major, minor := d.minor }
      match withCtx "do handle device" (env.do_handle_device cfg) with
      | .error e => ([.registryHandleDevice cfg], .error e)
      | .ok (.Block device) =>
        let agent_device : AgentDevice :=
          { id := device.device_id, container_path := d.path,
            field_type := device.driver_option, vm_path := device.virt_path }
        let tail := handlerDevicesGo env rest
        (.registryHandleDevice cfg :: tail.1,
         match tail.2 with
         | .error e => .error e
         | .ok ds => .ok (agent_device :: ds))
      | .ok .Other =>
        let tail := handlerDevicesGo env rest
        (.registryHandleDevice cfg :: tail.1, tail.2)
    else
      handlerDevicesGo env rest

/-- `ResourceManagerInner::handler_devices` -/
def handler_devices (env : Env) (_cid : String) (linux : Linux) :
    List Event × Result (List AgentDevice) :=
  handlerDevicesGo env linux.devices

/-- The device configuration `handler_devices` builds for a block-typed OCI
device. -/
def blockCfgOf (d : OciLinuxDevice) : DeviceConfig :=
  .BlockCfg { major := d.major, minor := d.minor }

/-- The descriptor `handler_devices` produces for one block-typed OCI device,
`none` when the registry result is not a block-device result. -/
def resolveBlock (env : Env) (d : OciLinuxDevice) : Option AgentDevice :=
  match env.do_handle_device (blockCfgOf d) with
  | .ok (.Block device) =>
    some { id := device.device_id, container_path := d.path,
           field_type := device.driver_option, vm_path := device.virt_path }
  | _ => none

/-- `ResourceManagerInner::cleanup` -/
def cleanup (env : Env) (m : ResourceManagerInner) :
    List Event × Result Unit :=
  match withCtx "delete cgroup" (env.cgroupDelete m.cgroups_resource) with
  | .error e => ([.deleteCgroup], .error e)
  | .ok _ =>
    let bm := handle_sandbox_bindmounts env m false
    match bm.2 with
    | .error e =>
      (.deleteCgroup :: bm.1,
       .error (e.withContext "failed to cleanup sandbox bindmounts"))
    | .ok _ =>
      match m.share_fs with
      | some sfs =>
        (.deleteCgroup :: bm.1 ++ [.shareFsMountCleanup],
         withCtx "failed to cleanup host path" sfs.mountCleanup)
      | none => (.deleteCgroup :: bm.1, .ok ())

/-- `Persist::save for ResourceManagerInner` -/
def save (m : ResourceManagerInner) : ResourceState :=
  let endpoint_state :=
    match m.network with
    | some network =>
      match network.saveEndpoints with
      | some ens => ens
      | none => []
    | none => []
  { endpoint := endpoint_state,
    cgroup_state := some m.cgroups_resource.save }

/-- `Persist::restore for ResourceManagerInner` -/
def restore (env : Env) (resource_args : ManagerArgs)
    (resource_state : ResourceState) : Result ResourceManagerInner :=
  match env.deviceManagerNew with
  | .error e => .error e
  | .ok dm =>
    .ok { sid := resource_args.sid,
          agent := resource_args.agent,
          hypervisor := resource_args.hypervisor,
          device_manager := dm,
          network := none,
          share_fs := none,
          cgroups_resource :=
            CgroupsResource.restore
              { sid := resource_args.sid, config := resource_args.config }
              (resource_state.cgroup_state.getD CgroupState.default),
          toml_config := TomlConfig.default }

/-- The fixed order of cleanup steps for a given orchestrator state. -/
def cleanupOrder (m : ResourceManagerInner) : List Event :=
  [Event.deleteCgroup]
    ++ (if m.toml_config.runtime.sandbox_bind_mounts.isEmpty then []
        else [Event.bindmountOp false])
    ++ (match m.share_fs with
        | some _ => [Event.shareFsMountCleanup]
        | none => [])

/- Concrete fixtures used by witness theorems. -/

/-- A guest agent whose three RPCs all succeed. -/
def agentOkW : Agent :=
  { update_interface := fun _ => .ok ()
    add_arp_neighbors := fun _ => .ok ()
    update_routes := fun _ => .ok () }

/-- A hypervisor that reports filesystem sharing unsupported. -/
def hypervisorFalseW : Hypervisor := ⟨.ok ⟨false⟩⟩

/-- A network backend with two interfaces, no neighbors, one route. -/
def networkW : Network :=
  { interfaces := .ok [⟨1⟩, ⟨2⟩]
    neighs := .ok []
    routes := .ok [⟨5⟩]
    saveEndpoints := some [⟨3⟩] }

/-- A share-fs backend whose operations all succeed. -/
def shareFsOkW : ShareFs :=
  { setup_device_before_start_vm := .ok ()
    setup_device_after_start_vm := .ok ()
    get_storages := .ok [⟨1⟩]
    mountCleanup := .ok () }

/-- A cgroups resource with a distinguishable state. -/
def cgW : CgroupsResource := ⟨⟨7⟩⟩

/-- An environment in which every external call succeeds. -/
def baseEnvW : Env :=
  { shareFsNew := fun _ _ => .ok shareFsOkW
    sandboxBindMountsNew := fun _ _ => .ok ⟨.ok (), .ok ()⟩
    networkThread := fun _ => .finished (.ok networkW)
    do_handle_device := fun _ => .ok (.Block ⟨"blk-1", "virtio-blk", "/dev/vda"⟩)
    deviceManagerNew := .ok ⟨0⟩
    cgroupsResourceNew := fun _ _ => .ok cgW
    cgroupDelete := fun _ => .ok () }

/-- An environment whose network worker thread panics. -/
def envPanicW : Env :=
  { baseEnvW with networkThread := fun _ => .panicked "boom" }

/-- An environment whose network setup fails functionally. -/
def envNetFailW : Env :=
  { baseEnvW with networkThread := fun _ => .finished (.error ⟨[], "enodev"⟩) }

/-- An environment whose registry resolves major 9 to a non-block result and
everything else to a block result. -/
def envOtherW : Env :=
  { baseEnvW with
    do_handle_device := fun cfg =>
      match cfg with
      | .BlockCfg c =>
        if c.major = 9 then .ok .Other
        else .ok (.Block ⟨"blk-1", "virtio-blk", "/dev/vda"⟩) }

/-- A baseline orchestrator state: no network, no share-fs, fs sharing
unsupported by the hypervisor. -/
def managerW : ResourceManagerInner :=
  { sid := "sandbox-1", toml_config := TomlConfig.default, agent := agentOkW
    hypervisor := hypervisorFalseW, device_manager := ⟨0⟩, network := none
    share_fs := none, cgroups_resource := cgW }

/-- The baseline orchestrator with a configured network. -/
def managerNetW : ResourceManagerInner :=
  { managerW with network := some networkW }

/-- Constructor arguments matching `managerW`. -/
def argsW : ManagerArgs :=
  { sid := "sandbox-1", agent := agentOkW, hypervisor := hypervisorFalseW
    config := TomlConfig.default }

/-- A device list with one block device (major 8, minor 0, path /dev/foo) and
one character device. -/
def linuxW : Linux :=
  ⟨[⟨"b", 8, 0, "/dev/foo"⟩, ⟨"c", 1, 3, "/dev/null"⟩]⟩

/-- A device list with two block devices (majors 8 and 9). -/
def linuxTwoBlocksW : Linux :=
  ⟨[⟨"b", 8, 0, "/dev/foo"⟩, ⟨"b", 9, 0, "/dev/bar"⟩]⟩

/-! Theorems -/

/-- C2: `handle_network` always resolves the worker-thread join before
returning: a panic on the worker thread is reported as a thread-join error
with context "Couldn't join on the associated thread", a functional setup
failure carries the distinct context "failed to set up network", both are
returned to the caller, and on success the orchestrator's network field is
set to the constructed backend. -/
theorem handle_network_join_and_errors (env : Env) (m : ResourceManagerInner)
    (c : NetworkConfig) :
    (∀ payload, env.networkThread c = .panicked payload →
      handle_network env m c =
        .error { contexts := ["Couldn\x27t join on the associated thread"],
                 base := payload }) ∧
    (∀ (e : Error), env.networkThread c = .finished (.error e) →
      handle_network env m c = .error (e.withContext "failed to set up network")) ∧
    (∀ net, env.networkThread c = .finished (.ok net) →
      handle_network env m c = .ok { m with network := some net }) ∧
    (∀ (payload : String) (e : Error),
      ({ contexts := ["Couldn\x27t join on the associated thread"],
         base := payload } : Error) ≠
        e.withContext "failed to set up network") := by
  refine ⟨?_, ?_, ?_, ?_⟩
  · intro payload h
    unfold handle_network
    rw [h]
  · intro e h
    unfold handle_network
    rw [h]
  · intro net h
    unfold handle_network
    rw [h]
  · intro payload e hcontra
    have hctx : ["Couldn\x27t join on the associated thread"] =
        "failed to set up network" :: e.contexts := congrArg Error.contexts hcontra
    have hhd : "Couldn\x27t join on the associated thread" =
        "failed to set up network" := by
      injection hctx
    exact absurd hhd (by decide)

/-- Witness for C2: in an environment whose worker thread panics with payload
"boom", `handle_network` returns the thread-join error. -/
theorem handle_network_join_and_errors_witness :
    handle_network envPanicW managerW ⟨0⟩ =
      .error { contexts := ["Couldn\x27t join on the associated thread"],
               base := "boom" } :=
  (handle_network_join_and_errors envPanicW managerW ⟨0⟩).1 "boom" rfl

/-- C5: when the hypervisor reports filesystem sharing unsupported, a
share-filesystem entry is skipped without error, no share-fs backend is
constructed (no `shareFsNewCall` event, share-fs field stays absent), and
`get_storage_for_sandbox` on the resulting state returns the empty list. -/
theorem prepare_sharefs_unsupported_skip (env : Env) (m : ResourceManagerInner)
    (c : ShareFsConfig) (caps : Capabilities)
    (hcap : m.hypervisor.capabilities = .ok caps)
    (hunsup : caps.is_fs_sharing_supported = false) :
    prepare_before_start_vm env m [ResourceConfig.ShareFs c] =
      ([Event.entryShareFs c], .ok { m with share_fs := none }) ∧
    ({ m with share_fs := none } : ResourceManagerInner).share_fs = none ∧
    get_storage_for_sandbox { m with share_fs := none } = .ok [] ∧
    (∀ cc, Event.shareFsNewCall cc ∉
      (prepare_before_start_vm env m [ResourceConfig.ShareFs c]).1) := by
  have hproc : processResourceConfig env m (ResourceConfig.ShareFs c) =
      ([], .ok { m with share_fs := none }) := by
    unfold processResourceConfig
    rw [hcap]
    simp [hunsup]
  have hprep : prepare_before_start_vm env m [ResourceConfig.ShareFs c] =
      ([Event.entryShareFs c], .ok { m with share_fs := none }) := by
    unfold prepare_before_start_vm
    rw [hproc]
    rfl
  refine ⟨hprep, rfl, rfl, ?_⟩
  intro cc
  rw [hprep]
  simp

/-- Witness for C5: the baseline hypervisor reports no fs sharing; the entry
is skipped and storage for the sandbox is empty. -/
theorem prepare_sharefs_unsupported_skip_witness :
    prepare_before_start_vm baseEnvW managerW [ResourceConfig.ShareFs ⟨0⟩] =
      ([Event.entryShareFs ⟨0⟩], .ok { managerW with share_fs := none }) ∧
    get_storage_for_sandbox { managerW with share_fs := none } = .ok [] := by
  have h := prepare_sharefs_unsupported_skip baseEnvW managerW ⟨0⟩ ⟨false⟩ rfl rfl
  exact ⟨h.1, h.2.2.1⟩

/-- C7: `save()` followed by `restore()` with the same constructor arguments
yields an orchestrator whose cgroup state matches the one save serialized,
with network and share-fs absent; the persisted record carries exactly the
endpoint-state list (empty when no network is configured or the backend
declines) and the cgroup-state record. -/
theorem save_restore_roundtrip (env : Env) (m : ResourceManagerInner)
    (args : ManagerArgs) (dm : DeviceManager)
    (_hsid : args.sid = m.sid) (_hagent : args.agent = m.agent)
    (_hhyp : args.hypervisor = m.hypervisor)
    (_hcfg : args.config = m.toml_config)
    (hdm : env.deviceManagerNew = .ok dm) :
    ∃ m1, restore env args (save m) = .ok m1 ∧
      m1.cgroups_resource.state = m.cgroups_resource.state ∧
      m1.network = none ∧
      m1.share_fs = none ∧
      (save m).cgroup_state = some m.cgroups_resource.state ∧
      (m.network = none → (save m).endpoint = []) ∧
      (∀ n, m.network = some n → n.saveEndpoints = none →
        (save m).endpoint = []) := by
  have hres : restore env args (save m) =
      .ok { sid := args.sid, agent := args.agent, hypervisor := args.hypervisor,
            device_manager := dm, network := none, share_fs := none,
            cgroups_resource :=
              CgroupsResource.restore { sid := args.sid, config := args.config }
                ((save m).cgroup_state.getD CgroupState.default),
            toml_config := TomlConfig.default } := by
    unfold restore
    rw [hdm]
  refine ⟨_, hres, ?_, rfl, rfl, rfl, ?_, ?_⟩
  · simp [CgroupsResource.restore, save, CgroupsResource.save]
  · intro h
    simp [save, h]
  · intro n hn hdecl
    simp [save, hn, hdecl]

/-- Witness for C7: round trip on the baseline orchestrator with matching
constructor arguments. -/
theorem save_restore_roundtrip_witness :
    ∃ m1, restore baseEnvW argsW (save managerW) = .ok m1 ∧
      m1.cgroups_resource.state = managerW.cgroups_resource.state ∧
      m1.network = none ∧ m1.share_fs = none := by
  obtain ⟨m1, h1, h2, h3, h4, -⟩ :=
    save_restore_roundtrip baseEnvW managerW argsW ⟨0⟩ rfl rfl rfl rfl rfl
  exact ⟨m1, h1, h2, h3, h4⟩

/-- C8: `restore` unconditionally sets the configuration snapshot to the
default configuration, using the caller-supplied configuration only for
cgroup restoration, whereas construction keeps the supplied configuration. -/
theorem restore_default_config (env : Env) (args : ManagerArgs)
    (st : ResourceState) (dm : DeviceManager)
    (hdm : env.deviceManagerNew = .ok dm) :
    (∃ m1, restore env args st = .ok m1 ∧
      m1.toml_config = TomlConfig.default ∧
      m1.cgroups_resource =
        CgroupsResource.restore { sid := args.sid, config := args.config }
          (st.cgroup_state.getD CgroupState.default)) ∧
    (∀ sid agent hyp cfg m2,
      ResourceManagerInner.new env sid agent hyp cfg = .ok m2 →
      m2.toml_config = cfg) := by
  constructor
  · have hres : restore env args st =
        .ok { sid := args.sid, agent := args.agent,
              hypervisor := args.hypervisor, device_manager := dm,
              network := none, share_fs := none,
              cgroups_resource :=
                CgroupsResource.restore
                  { sid := args.sid, config := args.config }
                  (st.cgroup_state.getD CgroupState.default),
              toml_config := TomlConfig.default } := by
      unfold restore
      rw [hdm]
    exact ⟨_, hres, rfl, rfl⟩
  · intro sid agent hyp cfg m2 h
    unfold ResourceManagerInner.new at h
    cases hcg : env.cgroupsResourceNew sid cfg with
    | error e => rw [hcg] at h; exact Except.noConfusion h
    | ok cg =>
      rw [hcg] at h
      cases hdm2 : withCtx "failed to create device manager" env.deviceManagerNew with
      | error e => rw [hdm2] at h; exact Except.noConfusion h
      | ok dm2 =>
        rw [hdm2] at h
        cases h
        rfl

/-- Witness for C8: restoring with non-default caller configuration still
yields the default configuration snapshot, while construction keeps it. -/
theorem restore_default_config_witness :
    ∃ m1, restore baseEnvW
        { argsW with config := ⟨⟨["/mnt/x"]⟩⟩ }
        { endpoint := [], cgroup_state := some ⟨9⟩ } = .ok m1 ∧
      m1.toml_config = TomlConfig.default := by
  obtain ⟨⟨m1, h1, h2, -⟩, -⟩ :=
    restore_default_config baseEnvW { argsW with config := ⟨⟨["/mnt/x"]⟩⟩ }
      { endpoint := [], cgroup_state := some ⟨9⟩ } ⟨0⟩ rfl
  exact ⟨m1, h1, h2⟩

/-- C9: `save` always produces a present (Some) cgroup-state field, and
`restore` accepts a record with an absent cgroup-state by substituting the
default cgroup state instead of failing. -/
theorem save_cgroup_some_restore_default (m : ResourceManagerInner) (env : Env)
    (args : ManagerArgs) (dm : DeviceManager)
    (hdm : env.deviceManagerNew = .ok dm) :
    ((save m).cgroup_state).isSome = true ∧
    (∀ ep : List EndpointState,
      ∃ m1, restore env args { endpoint := ep, cgroup_state := none } = .ok m1 ∧
        m1.cgroups_resource.state = CgroupState.default) := by
  constructor
  · rfl
  · intro ep
    have hres : restore env args { endpoint := ep, cgroup_state := none } =
        .ok { sid := args.sid, agent := args.agent,
              hypervisor := args.hypervisor, device_manager := dm,
              network := none, share_fs := none,
              cgroups_resource :=
                CgroupsResource.restore
                  { sid := args.sid, config := args.config }
                  CgroupState.default,
              toml_config := TomlConfig.default } := by
      unfold restore
      rw [hdm]
      rfl
    exact ⟨_, hres, rfl⟩

/-- Witness for C9: the baseline orchestrator saves a Some cgroup state and a
record without cgroup state restores to the default cgroup state. -/
theorem save_cgroup_some_restore_default_witness :
    ((save managerW).cgroup_state).isSome = true ∧
    (∃ m1, restore baseEnvW argsW { endpoint := [], cgroup_state := none } = .ok m1 ∧
      m1.cgroups_resource.state = CgroupState.default) := by
  obtain ⟨h1, h2⟩ :=
    save_cgroup_some_restore_default managerW baseEnvW argsW ⟨0⟩ rfl
  exact ⟨h1, h2 []⟩

/-- Helper: when every per-interface RPC succeeds, the interface loop makes
exactly one call per interface, in list order. -/
theorem updateInterfacesLoop_ok (agent : Agent) (ifs : List Interface)
    (h : ∀ i ∈ ifs, agent.update_interface i = .ok ()) :
    updateInterfacesLoop agent ifs =
      (ifs.map Event.agentUpdateInterface, .ok ()) := by
  induction ifs with
  | nil => rfl
  | cons i rest ih =>
    have hi : agent.update_interface i = .ok () := h i (List.mem_cons_self i rest)
    have hrest : ∀ j ∈ rest, agent.update_interface j = .ok () :=
      fun j hj => h j (List.mem_cons_of_mem i hj)
    unfold updateInterfacesLoop
    rw [hi]
    simp [withCtx, ih hrest]

/-- Helper: interface-update events are agent calls, so filtering keeps all
of them. -/
theorem filter_agent_map_updateInterface (ifs : List Interface) :
    (ifs.map Event.agentUpdateInterface).filter Event.isAgentCall =
      ifs.map Event.agentUpdateInterface := by
  induction ifs with
  | nil => rfl
  | cons i rest ih => simp [Event.isAgentCall, ih]

/-- C3: with a network configured, `setup_after_start_vm` issues guest-agent
calls in the fixed order interfaces, then neighbors, then routes; any of the
three categories whose list from the backend is empty contributes zero agent
calls. -/
theorem setup_after_start_vm_agent_order (m : ResourceManagerInner)
    (net : Network) (ifs : List Interface) (ns : List ARPNeighbor)
    (rs : List Route)
    (hnet : m.network = some net)
    (hsfs : ∀ sfs, m.share_fs = some sfs →
      sfs.setup_device_after_start_vm = .ok ())
    (hifs : net.interfaces = .ok ifs)
    (hns : net.neighs = .ok ns)
    (hrs : net.routes = .ok rs)
    (hai : ∀ i ∈ ifs, m.agent.update_interface i = .ok ())
    (han : m.agent.add_arp_neighbors ns = .ok ())
    (har : m.agent.update_routes rs = .ok ()) :
    (setup_after_start_vm m).1.filter Event.isAgentCall =
      ifs.map Event.agentUpdateInterface
        ++ (if ns.isEmpty then [] else [Event.agentAddArpNeighbors ns])
        ++ (if rs.isEmpty then [] else [Event.agentUpdateRoutes rs])
    ∧ (setup_after_start_vm m).2 = .ok () := by
  have h1 : handle_interfaces m net = (ifs.map Event.agentUpdateInterface, .ok ()) := by
    unfold handle_interfaces
    rw [hifs]
    exact updateInterfacesLoop_ok m.agent ifs hai
  have h2 : handle_neighbours m net =
      ((if ns.isEmpty then [] else [Event.agentAddArpNeighbors ns]), .ok ()) := by
    unfold handle_neighbours
    rw [hns]
    by_cases hemp : ns.isEmpty
    · simp [hemp]
    · simp [hemp, withCtx, han]
  have h3 : handle_routes m net =
      ((if rs.isEmpty then [] else [Event.agentUpdateRoutes rs]), .ok ()) := by
    unfold handle_routes
    rw [hrs]
    by_cases hemp : rs.isEmpty
    · simp [hemp]
    · simp [hemp, withCtx, har]
  have hsetup : setup_after_start_vm m =
      ((match m.share_fs with
        | some _ => [Event.setupDeviceAfterStartVm]
        | none => [])
        ++ ifs.map Event.agentUpdateInterface
        ++ (if ns.isEmpty then [] else [Event.agentAddArpNeighbors ns])
        ++ (if rs.isEmpty then [] else [Event.agentUpdateRoutes rs]), .ok ()) := by
    unfold setup_after_start_vm
    cases hshare : m.share_fs with
    | some sfs =>
      have hdev : sfs.setup_device_after_start_vm = .ok () := hsfs sfs hshare
      rw [hnet]
      simp [hdev, withCtx, h1, h2, h3]
    | none =>
      rw [hnet]
      simp [h1, h2, h3]
  rw [hsetup]
  refine ⟨?_, rfl⟩
  cases hshare : m.share_fs with
  | some sfs =>
    by_cases hens : ns.isEmpty <;> by_cases hers : rs.isEmpty <;>
      simp [hshare, hens, hers, List.filter_append,
        filter_agent_map_updateInterface, Event.isAgentCall]
  | none =>
    by_cases hens : ns.isEmpty <;> by_cases hers : rs.isEmpty <;>
      simp [hshare, hens, hers, List.filter_append,
        filter_agent_map_updateInterface, Event.isAgentCall]

/-- Witness for C3: the fixture network has two interfaces, no neighbors and
one route, so the agent sees two interface updates then one route update and
no neighbor call. -/
theorem setup_after_start_vm_agent_order_witness :
    (setup_after_start_vm managerNetW).1.filter Event.isAgentCall =
      [Event.agentUpdateInterface ⟨1⟩, Event.agentUpdateInterface ⟨2⟩,
       Event.agentUpdateRoutes [⟨5⟩]]
    ∧ (setup_after_start_vm managerNetW).2 = .ok () := by
  have h := setup_after_start_vm_agent_order managerNetW networkW
    [⟨1⟩, ⟨2⟩] [] [⟨5⟩] rfl
    (fun sfs h => Option.noConfusion h) rfl rfl rfl
    (fun i _ => rfl) rfl rfl
  refine ⟨?_, h.2⟩
  rw [h.1]
  rfl

/-- Helper: when the registry call succeeds for every block-typed entry, the
device loop consults the registry exactly for the block-typed entries, in
order, and returns the descriptors of those whose registry result is a
block-device result. -/
theorem handlerDevicesGo_eq (env : Env) (ds : List OciLinuxDevice)
    (h : ∀ d ∈ ds, d.r_type = "b" →
      resultIsOk (env.do_handle_device (blockCfgOf d)) = true) :
    handlerDevicesGo env ds =
      ((ds.filter fun d => d.r_type == "b").map
          fun d => Event.registryHandleDevice (blockCfgOf d),
       .ok ((ds.filter fun d => d.r_type == "b").filterMap (resolveBlock env))) := by
  induction ds with
  | nil => rfl
  | cons d rest ih =>
    have hrest : ∀ x ∈ rest, x.r_type = "b" →
        resultIsOk (env.do_handle_device (blockCfgOf x)) = true :=
      fun x hx => h x (List.mem_cons_of_mem d hx)
    by_cases hb : d.r_type = "b"
    · have hok := h d (List.mem_cons_self d rest) hb
      cases hdev : env.do_handle_device (blockCfgOf d) with
      | error e =>
        rw [hdev] at hok
        exact absurd hok (by simp [resultIsOk])
      | ok dt =>
        cases dt with
        | Block device =>
          unfold handlerDevicesGo
          rw [hb]
          simp only [if_pos rfl]
          have hcfg : (DeviceConfig.BlockCfg { major := d.major, minor := d.minor }) =
              blockCfgOf d := rfl
          rw [hcfg, hdev]
          simp only [withCtx, ih hrest]
          have hres : resolveBlock env d =
              some { id := device.device_id, container_path := d.path,
                     field_type := device.driver_option,
                     vm_path := device.virt_path } := by
            unfold resolveBlock
            rw [hdev]
          simp [List.filter_cons, hb, List.filterMap_cons, hres, blockCfgOf]
        | Other =>
          unfold handlerDevicesGo
          rw [hb]
          simp only [if_pos rfl]
          have hcfg : (DeviceConfig.BlockCfg { major := d.major, minor := d.minor }) =
              blockCfgOf d := rfl
          rw [hcfg, hdev]
          simp only [withCtx, ih hrest]
          have hres : resolveBlock env d = none := by
            unfold resolveBlock
            rw [hdev]
          simp [List.filter_cons, hb, List.filterMap_cons, hres, blockCfgOf]
    · unfold handlerDevicesGo
      rw [if_neg hb]
      rw [ih hrest]
      have hbeq : (d.r_type == "b") = false := by
        simp [hb]
      simp [List.filter_cons, hbeq]

/-- C4: `handler_devices` consults the registry exactly for the block-typed
("b") entries, in order, skips every other device kind without error, and
returns one descriptor per block entry whose registry result is a
block-device result, populated from that result and the entry's path. -/
theorem handler_devices_block_filter (env : Env) (cid : String) (linux : Linux)
    (h : ∀ d ∈ linux.devices, d.r_type = "b" →
      resultIsOk (env.do_handle_device (blockCfgOf d)) = true) :
    handler_devices env cid linux =
      ((linux.devices.filter fun d => d.r_type == "b").map
          fun d => Event.registryHandleDevice (blockCfgOf d),
       .ok ((linux.devices.filter fun d => d.r_type == "b").filterMap
          (resolveBlock env))) :=
  handlerDevicesGo_eq env linux.devices h

/-- Witness for C4: one block device (major 8, minor 0, path /dev/foo) plus
one character device yield exactly one descriptor, populated from the
registry result, and exactly one registry request. -/
theorem handler_devices_block_filter_witness :
    handler_devices baseEnvW "c1" linuxW =
      ([Event.registryHandleDevice (.BlockCfg ⟨8, 0⟩)],
       .ok [{ id := "blk-1", container_path := "/dev/foo",
              field_type := "virtio-blk", vm_path := "/dev/vda" }]) := by
  have h := handler_devices_block_filter baseEnvW "c1" linuxW (by decide)
  rw [h]
  rfl

/-- Helper: a list element mapped to `none` makes `filterMap` strictly
shorter than the list. -/
theorem length_filterMap_lt_of_none {α β : Type} (f : α → Option β)
    (l : List α) (a : α) (ha : a ∈ l) (hf : f a = none) :
    (l.filterMap f).length < l.length := by
  induction l with
  | nil => cases ha
  | cons b bs ih =>
    rcases List.mem_cons.mp ha with hab | hmem
    · subst hab
      rw [List.filterMap_cons, hf]
      exact Nat.lt_succ_of_le (List.length_filterMap_le f bs)
    · cases hfb : f b with
      | none =>
        rw [List.filterMap_cons, hfb]
        exact Nat.lt_succ_of_lt (ih hmem)
      | some c =>
        rw [List.filterMap_cons, hfb]
        simpa using Nat.succ_lt_succ (ih hmem)

/-- C10: a block-typed entry whose registry result is not a block-device
result is silently omitted: `handler_devices` still succeeds, and the
returned list is strictly shorter than the number of block-typed inputs. -/
theorem handler_devices_nonblock_dropped (env : Env) (cid : String)
    (linux : Linux)
    (hok : ∀ d ∈ linux.devices, d.r_type = "b" →
      resultIsOk (env.do_handle_device (blockCfgOf d)) = true)
    (d : OciLinuxDevice) (hd : d ∈ linux.devices) (hb : d.r_type = "b")
    (hother : env.do_handle_device (blockCfgOf d) = .ok .Other) :
    ∃ res, (handler_devices env cid linux).2 = .ok res ∧
      res.length < (linux.devices.filter fun x => x.r_type == "b").length := by
  have hchar := handlerDevicesGo_eq env linux.devices hok
  refine ⟨(linux.devices.filter fun x => x.r_type == "b").filterMap
      (resolveBlock env), ?_, ?_⟩
  · show (handler_devices env cid linux).2 = _
    unfold handler_devices
    rw [hchar]
  · apply length_filterMap_lt_of_none (resolveBlock env) _ d
    · exact List.mem_filter.mpr ⟨hd, by simp [hb]⟩
    · unfold resolveBlock
      rw [hother]

/-- Witness for C10: two block-typed devices, the registry resolves major 9
to a non-block result, so only one descriptor comes back. -/
theorem handler_devices_nonblock_dropped_witness :
    ∃ res, (handler_devices envOtherW "c1" linuxTwoBlocksW).2 = .ok res ∧
      res.length <
        (linuxTwoBlocksW.devices.filter fun x => x.r_type == "b").length :=
  handler_devices_nonblock_dropped envOtherW "c1" linuxTwoBlocksW (by decide)
    ⟨"b", 9, 0, "/dev/bar"⟩ (by decide) rfl (by decide)

/-- Helper: with an empty configured bind-mount list, the bind-mount step is
a successful no-op that consults nothing. -/
theorem handle_sandbox_bindmounts_empty (env : Env) (m : ResourceManagerInner)
    (setup : Bool) (h : m.toml_config.runtime.sandbox_bind_mounts = []) :
    handle_sandbox_bindmounts env m setup = ([], .ok ()) := by
  unfold handle_sandbox_bindmounts
  simp [h]

/-- Helper: the bind-mount step makes at most its own one operation. -/
theorem handle_sandbox_bindmounts_trace (env : Env) (m : ResourceManagerInner)
    (setup : Bool) :
    (handle_sandbox_bindmounts env m setup).1 = [] ∨
    (handle_sandbox_bindmounts env m setup).1 = [Event.bindmountOp setup] := by
  unfold handle_sandbox_bindmounts
  by_cases hemp : m.toml_config.runtime.sandbox_bind_mounts.isEmpty
  · simp [hemp]
  · simp only [hemp, Bool.false_eq_true, if_false]
    cases hnew : env.sandboxBindMountsNew m.sid
        m.toml_config.runtime.sandbox_bind_mounts with
    | error e => simp
    | ok sb => by_cases hs : setup <;> simp [hs]

/-- C6: `cleanup` runs cgroup deletion, then bind-mount cleanup, then
share-fs mount cleanup (only if present), in that order; it stops at the
first failing step and returns that error with the stage context; with an
empty configured bind-mount list no bind-mount operation happens and the
empty list causes no failure. -/
theorem cleanup_order_stop_first_failure (env : Env)
    (m : ResourceManagerInner) :
    ((cleanup env m).1 <+: cleanupOrder m) ∧
    (∀ e, env.cgroupDelete m.cgroups_resource = .error e →
      cleanup env m =
        ([Event.deleteCgroup], .error (e.withContext "delete cgroup"))) ∧
    (∀ e, env.cgroupDelete m.cgroups_resource = .ok () →
      (handle_sandbox_bindmounts env m false).2 = .error e →
      (cleanup env m).2 =
          .error (e.withContext "failed to cleanup sandbox bindmounts") ∧
        Event.shareFsMountCleanup ∉ (cleanup env m).1) ∧
    (m.toml_config.runtime.sandbox_bind_mounts = [] →
      Event.bindmountOp false ∉ (cleanup env m).1 ∧
      (env.cgroupDelete m.cgroups_resource = .ok () → m.share_fs = none →
        cleanup env m = ([Event.deleteCgroup], .ok ()))) := by
  refine ⟨?_, ?_, ?_, ?_⟩
  · cases hdel : env.cgroupDelete m.cgroups_resource with
    | error e =>
      unfold cleanup
      simp [withCtx, hdel, cleanupOrder, List.cons_prefix_cons]
    | ok u =>
      unfold cleanup
      simp only [withCtx, hdel]
      by_cases hemp : m.toml_config.runtime.sandbox_bind_mounts.isEmpty
      · have hbm := handle_sandbox_bindmounts_empty env m false
          (List.isEmpty_iff.mp hemp)
        rw [hbm]
        cases hshare : m.share_fs with
        | some sfs => simp [cleanupOrder, hemp, hshare, List.cons_prefix_cons]
        | none => simp [cleanupOrder, hemp, hshare, List.cons_prefix_cons]
      · have horder : cleanupOrder m =
            Event.deleteCgroup :: Event.bindmountOp false ::
              (match m.share_fs with
               | some _ => [Event.shareFsMountCleanup]
               | none => []) := by
          simp [cleanupOrder, hemp]
        cases hnew : env.sandboxBindMountsNew m.sid
            m.toml_config.runtime.sandbox_bind_mounts with
        | error e =>
          have hbm : handle_sandbox_bindmounts env m false = ([], .error e) := by
            unfold handle_sandbox_bindmounts
            simp [hemp, hnew]
          rw [hbm, horder]
          simp [List.cons_prefix_cons]
        | ok sb =>
          have hbm : handle_sandbox_bindmounts env m false =
              ([Event.bindmountOp false], sb.cleanupResult) := by
            unfold handle_sandbox_bindmounts
            simp [hemp, hnew]
          rw [hbm, horder]
          cases hres : sb.cleanupResult with
          | error e => simp [List.cons_prefix_cons]
          | ok v =>
            cases hshare : m.share_fs with
            | some sfs => simp [hshare, List.cons_prefix_cons]
            | none => simp [hshare, List.cons_prefix_cons]
  · intro e hdel
    unfold cleanup
    simp [withCtx, hdel]
  · intro e hdel hbm
    unfold cleanup
    simp only [withCtx, hdel]
    rw [hbm]
    rcases handle_sandbox_bindmounts_trace env m false with htr | htr <;>
      simp [htr]
  · intro hempty
    have hbm := handle_sandbox_bindmounts_empty env m false hempty
    constructor
    · cases hdel : env.cgroupDelete m.cgroups_resource with
      | error e =>
        unfold cleanup
        simp [withCtx, hdel]
      | ok u =>
        unfold cleanup
        simp only [withCtx, hdel]
        rw [hbm]
        cases hshare : m.share_fs with
        | some sfs => simp [hshare]
        | none => simp [hshare]
    · intro hdel hshare
      unfold cleanup
      simp [withCtx, hdel, hbm, hshare]

/-- Witness for C6: baseline orchestrator (empty bind-mount list, no
share-fs, successful cgroup deletion) cleans up with only the cgroup step. -/
theorem cleanup_order_stop_first_failure_witness :
    Event.bindmountOp false ∉ (cleanup baseEnvW managerW).1 ∧
    cleanup baseEnvW managerW = ([Event.deleteCgroup], .ok ()) := by
  have h := (cleanup_order_stop_first_failure baseEnvW managerW).2.2.2 rfl
  exact ⟨h.1, h.2 rfl rfl⟩

/-- Helper: the entry marker of a configuration entry is an entry event. -/
theorem entryEvent_isEntry (dc : ResourceConfig) :
    (ResourceConfig.entryEvent dc).isEntry = true := by
  cases dc <;> rfl

/-- Helper: processing a single configuration entry emits no entry markers of
its own (those come from the loop). -/
theorem processResourceConfig_no_entry (env : Env) (m : ResourceManagerInner)
    (dc : ResourceConfig) :
    (processResourceConfig env m dc).1.filter Event.isEntry = [] := by
  cases dc with
  | ShareFs c =>
    simp only [processResourceConfig]
    cases hcap : m.hypervisor.capabilities with
    | error e => simp
    | ok caps =>
      by_cases hsup : caps.is_fs_sharing_supported
      · simp only [hsup, if_true]
        cases hnew : withCtx "new share fs" (env.shareFsNew m.sid c) with
        | error e => simp [hnew, Event.isEntry]
        | ok sfs =>
          cases hdev : withCtx "setup share fs device before start vm"
              sfs.setup_device_before_start_vm with
          | error e => simp [hnew, hdev, Event.isEntry]
          | ok u =>
            cases hbm : (handle_sandbox_bindmounts env m true).2 with
            | error e =>
              rcases handle_sandbox_bindmounts_trace env m true with htr | htr <;>
                simp [hnew, hdev, hbm, htr, Event.isEntry]
            | ok v =>
              rcases handle_sandbox_bindmounts_trace env m true with htr | htr <;>
                simp [hnew, hdev, hbm, htr, Event.isEntry]
      · simp [hsup]
  | Network c =>
    simp only [processResourceConfig]
    cases hn : handle_network env m c <;> simp [hn]

/-- Helper: a fully successful run of the prepare loop emits one entry
marker per entry, in input order. -/
theorem prepare_ok_entries (env : Env) (m : ResourceManagerInner)
    (l : List ResourceConfig) (m1 : ResourceManagerInner)
    (h : (prepare_before_start_vm env m l).2 = .ok m1) :
    (prepare_before_start_vm env m l).1.filter Event.isEntry =
      l.map ResourceConfig.entryEvent := by
  induction l generalizing m with
  | nil => rfl
  | cons dc rest ih =>
    simp only [prepare_before_start_vm] at h ⊢
    cases hstep : (processResourceConfig env m dc).2 with
    | error e =>
      rw [hstep] at h
      exact Except.noConfusion h
    | ok m2 =>
      rw [hstep] at h
      have h2 : (prepare_before_start_vm env m2 rest).2 = .ok m1 := h
      show List.filter Event.isEntry
          (dc.entryEvent :: ((processResourceConfig env m dc).1 ++
            (prepare_before_start_vm env m2 rest).1)) =
        List.map ResourceConfig.entryEvent (dc :: rest)
      simp only [List.map_cons, List.filter_cons, List.filter_append,
        entryEvent_isEntry, processResourceConfig_no_entry, if_true]
      rw [ih m2 h2]
      simp [entryEvent_isEntry]

/-- Helper: processing a concatenation whose first part fully succeeds is
processing the first part and then the second from the reached state. -/
theorem prepare_append_ok (env : Env) (m : ResourceManagerInner)
    (l1 l2 : List ResourceConfig) (m1 : ResourceManagerInner)
    (h : (prepare_before_start_vm env m l1).2 = .ok m1) :
    prepare_before_start_vm env m (l1 ++ l2) =
      ((prepare_before_start_vm env m l1).1 ++
        (prepare_before_start_vm env m1 l2).1,
       (prepare_before_start_vm env m1 l2).2) := by
  induction l1 generalizing m with
  | nil =>
    have hm : m = m1 := by
      simpa [prepare_before_start_vm] using h
    subst hm
    simp [prepare_before_start_vm]
  | cons dc rest ih =>
    simp only [prepare_before_start_vm, List.cons_append] at h ⊢
    cases hstep : (processResourceConfig env m dc).2 with
    | error e =>
      rw [hstep] at h
      exact Except.noConfusion h
    | ok m2 =>
      rw [hstep] at h
      have h2 : (prepare_before_start_vm env m2 rest).2 = .ok m1 := h
      show (dc.entryEvent :: ((processResourceConfig env m dc).1 ++
              (prepare_before_start_vm env m2 (rest ++ l2)).1),
            (prepare_before_start_vm env m2 (rest ++ l2)).2) =
        ((dc.entryEvent :: ((processResourceConfig env m dc).1 ++
              (prepare_before_start_vm env m2 rest).1)) ++
            (prepare_before_start_vm env m1 l2).1,
         (prepare_before_start_vm env m1 l2).2)
      rw [ih m2 h2]
      simp [List.append_assoc]

/-- C1: `prepare_before_start_vm` processes the supplied entries strictly in
input order; when processing one entry fails, the entries after it are not
processed (no entry markers beyond the failing one) and the failing entry's
error — already wrapped with the context of the failing stage — is returned
to the caller. -/
theorem prepare_inorder_abort (env : Env) (m : ResourceManagerInner)
    (l1 : List ResourceConfig) (dc : ResourceConfig)
    (l2 : List ResourceConfig) (m1 : ResourceManagerInner) (e : Error)
    (hpre : (prepare_before_start_vm env m l1).2 = .ok m1)
    (hfail : (processResourceConfig env m1 dc).2 = .error e) :
    (prepare_before_start_vm env m (l1 ++ dc :: l2)).2 = .error e ∧
    (prepare_before_start_vm env m (l1 ++ dc :: l2)).1.filter Event.isEntry =
      (l1 ++ [dc]).map ResourceConfig.entryEvent := by
  have happ := prepare_append_ok env m l1 (dc :: l2) m1 hpre
  have hsingle : prepare_before_start_vm env m1 (dc :: l2) =
      (dc.entryEvent :: (processResourceConfig env m1 dc).1, .error e) := by
    simp only [prepare_before_start_vm]
    rw [hfail]
  rw [happ, hsingle]
  refine ⟨rfl, ?_⟩
  simp [List.filter_append, prepare_ok_entries env m l1 m1 hpre,
    List.filter_cons, entryEvent_isEntry, processResourceConfig_no_entry]

/-- Witness for C1: a share-fs entry succeeds (capability skip), the first
network entry fails functionally, and the trailing network entry is never
processed; the returned error carries the stage contexts. -/
theorem prepare_inorder_abort_witness :
    (prepare_before_start_vm envNetFailW managerW
        [ResourceConfig.ShareFs ⟨0⟩, ResourceConfig.Network ⟨1⟩,
         ResourceConfig.Network ⟨2⟩]).2 =
      .error ⟨["failed to handle network", "failed to set up network"],
              "enodev"⟩ ∧
    (prepare_before_start_vm envNetFailW managerW
        [ResourceConfig.ShareFs ⟨0⟩, ResourceConfig.Network ⟨1⟩,
         ResourceConfig.Network ⟨2⟩]).1.filter Event.isEntry =
      [Event.entryShareFs ⟨0⟩, Event.entryNetwork ⟨1⟩] := by
  have h := prepare_inorder_abort envNetFailW managerW
    [ResourceConfig.ShareFs ⟨0⟩] (ResourceConfig.Network ⟨1⟩)
    [ResourceConfig.Network ⟨2⟩] { managerW with share_fs := none }
    ⟨["failed to handle network", "failed to set up network"], "enodev"⟩
    rfl rfl
  exact ⟨h.1, h.2.trans (by rfl)⟩

end KataResource
